import Mathlib

/-!
Shallow embedding of the image-to-prompt application: the interaction
controller of `src/App.tsx` and the prompt generation client
(`generatePromptFromImage` of the gemini service, bundled in the same
source file).  React state hooks become explicit record fields; each
event handler becomes a function from state to state, returning in
addition the externally observable effects it performs (client calls,
clipboard writes, scheduled timers, revoked object URLs).  The external
AI service is modelled by an explicit outcome parameter fed to the
client.
-/

deriving instance DecidableEq for Except

namespace ImageToPrompt

/-- Status values of the controller, mirroring the union type
`AppStatus` of `src/App.tsx` line 7. -/
inductive AppStatus where
  | idle
  | uploading
  | previewing
  | generating
  | success
  | error
deriving DecidableEq, Repr

/-- A candidate file: its declared media type (`file.type`) and its raw
payload, which stands for the bytes a `FileReader` would expose. -/
structure SelectedFile where
  type : String
  data : String
deriving DecidableEq, Repr

/-- A display handle produced by `URL.createObjectURL`, bound to the
file it was created for. -/
structure ObjectURL where
  file : SelectedFile
deriving DecidableEq, Repr

/-- Model of `URL.createObjectURL`: the handle bound to a file. -/
def createObjectURL (f : SelectedFile) : ObjectURL := ⟨f⟩

/-- Modelled from the spec: `fileToBase64` of `src/utils/fileUtils` is
not under `src/`; per the spec the client receives the image payload
base64-encoded, so the conversion is modelled as returning the stored
payload unchanged. -/
def fileToBase64 (f : SelectedFile) : String := f.data

/-- The controller state: the six `useState` hooks of `App`
(`src/App.tsx` lines 10-15). -/
structure AppState where
  imageFile : Option SelectedFile
  generatedPrompt : String
  error : String
  status : AppStatus
  copySuccess : Bool
  isDragging : Bool
deriving DecidableEq, Repr

/-- The initial state of the hooks: no image, empty strings, idle. -/
def initialState : AppState :=
  { imageFile := none
    generatedPrompt := ""
    error := ""
    status := AppStatus.idle
    copySuccess := false
    isDragging := false }

/-- The derived `imageUrl` memo (`src/App.tsx` lines 17-22): a display
handle when an image is stored, nothing otherwise. -/
def imageUrl (s : AppState) : Option ObjectURL :=
  s.imageFile.map createObjectURL

/-- Model of the JavaScript `String.prototype.startsWith` used at
`file.type.startsWith('image/')`: character-wise prefix test. -/
def jsStartsWith (s pre : String) : Bool :=
  pre.data.isPrefixOf s.data

/-- Model of the JavaScript `String.prototype.trim` used at
`response.text.trim()`: remove leading and trailing whitespace. -/
def jsTrim (s : String) : String :=
  String.mk ((((s.data.dropWhile Char.isWhitespace).reverse).dropWhile Char.isWhitespace).reverse)

/-- Outcome of the one underlying API call
(`ai.models.generateContent`): it resolves with a response whose `text`
field may be absent or empty, or it rejects, either with an `Error`
carrying a message or with a value that is not an `Error`. -/
inductive ApiOutcome where
  | success (text : Option String)
  | failure (message : Option String)
deriving DecidableEq, Repr

/-- The generation client `generatePromptFromImage` (gemini service
source, lines 258-295).  A resolved response with non-empty text yields
the trimmed text.  A resolved response with no text throws inside the
`try` block, so that error is caught by the same `catch` and re-wrapped
with the `Gemini API Error: ` prefix.  A rejection with an `Error` is
wrapped with the same prefix; any other rejection collapses to the
generic unknown-error message. -/
def generatePromptFromImage (imageData : String) (mimeType : String)
    (api : ApiOutcome) : Except String String :=
  match api with
  | ApiOutcome.success (some txt) =>
      if txt ≠ "" then
        Except.ok (jsTrim txt)
      else
        Except.error ("Gemini API Error: " ++ "The API response was empty or invalid.")
  | ApiOutcome.success none =>
      Except.error ("Gemini API Error: " ++ "The API response was empty or invalid.")
  | ApiOutcome.failure (some m) =>
      Except.error ("Gemini API Error: " ++ m)
  | ApiOutcome.failure none =>
      Except.error "An unknown error occurred while communicating with the Gemini API."

/-- `processFile` (`src/App.tsx` lines 24-35): reject a file whose
declared media type does not start with `image/`, otherwise store it
and clear prior outputs. -/
def processFile (s : AppState) (file : SelectedFile) : AppState :=
  if !(jsStartsWith file.type ("image/")) then
    { s with
        error := "Please select a valid image file."
        status := AppStatus.error
        imageFile := none }
  else
    { s with
        imageFile := some file
        generatedPrompt := ""
        error := ""
        status := AppStatus.previewing }

/-- Result of one call to `handleGeneratePrompt`: the settled state and
the number of times the generation client was invoked. -/
structure GenerateResult where
  state : AppState
  clientCalls : Nat
deriving DecidableEq, Repr

/-- `handleGeneratePrompt` (`src/App.tsx` lines 44-67), from its start
through the settling of its single asynchronous client call.  With no image it
sets the no-image error.  With an image it clears prior outputs, calls
the client once on the encoded payload, and either stores the returned
prompt with status success or stores the wrapped failure message with
status error (`err` is always an `Error` here, so its `message` is
used). -/
def handleGeneratePrompt (s : AppState) (api : ApiOutcome) : GenerateResult :=
  match s.imageFile with
  | none =>
      { state :=
          { s with
              error := "Please select an image first."
              status := AppStatus.error }
        clientCalls := 0 }
  | some imageFile =>
      let s1 :=
        { s with
            status := AppStatus.generating
            error := ""
            generatedPrompt := "" }
      let base64Image := fileToBase64 imageFile
      let mimeType := imageFile.type
      match generatePromptFromImage base64Image mimeType api with
      | Except.ok prompt =>
          { state :=
              { s1 with
                  generatedPrompt := prompt
                  status := AppStatus.success }
            clientCalls := 1 }
      | Except.error errorMessage =>
          { state :=
              { s1 with
                  error := "Failed to generate prompt: " ++ errorMessage
                  status := AppStatus.error }
            clientCalls := 1 }

/-- Result of one call to `handleCopyPrompt`: the new state, what was
written to the clipboard (if anything), and the delay in milliseconds
of the scheduled clear-feedback timer (if one was scheduled). -/
structure CopyResult where
  state : AppState
  clipboardWrite : Option String
  timerDelayMs : Option Nat
deriving DecidableEq, Repr

/-- `handleCopyPrompt` (`src/App.tsx` lines 69-75): when the prompt is
non-empty, write it to the clipboard, set the feedback flag and
schedule its clearing after 2000 ms; otherwise do nothing. -/
def handleCopyPrompt (s : AppState) : CopyResult :=
  if s.generatedPrompt ≠ "" then
    { state := { s with copySuccess := true }
      clipboardWrite := some s.generatedPrompt
      timerDelayMs := some 2000 }
  else
    { state := s
      clipboardWrite := none
      timerDelayMs := none }

/-- The callback of the timer scheduled by `handleCopyPrompt`
(`src/App.tsx` line 73): clear the feedback flag. -/
def copyTimerFire (s : AppState) : AppState :=
  { s with copySuccess := false }

/-- Result of one call to `handleReset`: the new state and the display
handles revoked by `URL.revokeObjectURL`. -/
structure ResetResult where
  state : AppState
  revokedUrls : List ObjectURL
deriving DecidableEq, Repr

/-- `handleReset` (`src/App.tsx` lines 77-85): clear image, prompt,
error, return to idle, and revoke the display handle bound to the
stored image when there was one. -/
def handleReset (s : AppState) : ResetResult :=
  let s1 :=
    { s with
        imageFile := none
        generatedPrompt := ""
        error := ""
        status := AppStatus.idle }
  match imageUrl s with
  | some url => { state := s1, revokedUrls := [url] }
  | none => { state := s1, revokedUrls := [] }

/-- One controller operation, as listed by the spec: submit a file,
request generation together with its resolution, copy, the copy-timer
firing, and reset. -/
inductive Event where
  | submit (file : SelectedFile)
  | generate (api : ApiOutcome)
  | copy
  | copyTimer
  | reset
deriving DecidableEq, Repr

/-- The state reached after one operation, projecting away the
non-state effects. -/
def step (s : AppState) : Event → AppState
  | Event.submit f => processFile s f
  | Event.generate api => (handleGeneratePrompt s api).state
  | Event.copy => (handleCopyPrompt s).state
  | Event.copyTimer => copyTimerFire s
  | Event.reset => (handleReset s).state

/-- The state reached after a sequence of operations. -/
def run (s : AppState) (es : List Event) : AppState :=
  es.foldl step s

/-- The guard the interaction surface enforces: the upload zone (file
picker and drop target) is rendered only while no image is stored
(`src/App.tsx` line 131), so `processFile` fires only then; every other
operation is unrestricted. -/
def eventAllowed (s : AppState) : Event → Bool
  | Event.submit _ => s.imageFile.isNone
  | _ => true

/-- A sequence of operations all of which respect the interaction
surface guard at the moment they fire. -/
def guardedFrom (s : AppState) : List Event → Bool
  | [] => true
  | e :: es => eventAllowed s e && guardedFrom (step s e) es

/-- A concrete valid image file used to instantiate theorems. -/
def pngFile : SelectedFile := ⟨"image/png", "payloadA"⟩

/-- A concrete non-image file used to instantiate theorems. -/
def txtFile : SelectedFile := ⟨"text/plain", "notes"⟩

/-- The concrete previewing state reached by submitting `pngFile` from
the initial state. -/
def demoPreviewing : AppState := run initialState [Event.submit pngFile]

/-- The concrete success state reached from `demoPreviewing` by a
generation whose API call resolves with text. -/
def demoSuccess : AppState :=
  (handleGeneratePrompt demoPreviewing (ApiOutcome.success (some ("A barn")))).state

/-- Invariant used for claim C7: the prompt and the error are not both
non-empty, and a state with no stored image has an empty prompt. -/
def PromptErrorInv (s : AppState) : Prop :=
  ¬(s.generatedPrompt ≠ "" ∧ s.error ≠ "") ∧
    (s.imageFile = none → s.generatedPrompt = "")

/-- Invariant used for claim C8: a state with idle status stores no
image. -/
def IdleNoImage (s : AppState) : Prop :=
  s.status = AppStatus.idle → s.imageFile = none

/-- `run` peels off the first event. -/
theorem run_cons (s : AppState) (e : Event) (es : List Event) :
    run s (e :: es) = run (step s e) es := rfl

/-- A guarded trace extended by one event is guarded throughout, and
its last event is allowed at the state the trace reaches. -/
theorem guardedFrom_append (s : AppState) (es : List Event) (e : Event)
    (h : guardedFrom s (es ++ [e]) = true) :
    guardedFrom s es = true ∧ eventAllowed (run s es) e = true := by
  induction es generalizing s with
  | nil => simpa [guardedFrom, run] using h
  | cons e0 es ih =>
      simp only [List.cons_append, guardedFrom, Bool.and_eq_true] at h
      obtain ⟨h1, h2⟩ := h
      have h3 := ih (step s e0) h2
      exact ⟨by simp [guardedFrom, h1, h3.1], by simpa [run_cons] using h3.2⟩

/-- One allowed operation preserves `PromptErrorInv`. -/
theorem promptErrorInv_step (s : AppState) (e : Event)
    (hinv : PromptErrorInv s) (hall : eventAllowed s e = true) :
    PromptErrorInv (step s e) := by
  obtain ⟨h1, h2⟩ := hinv
  cases e with
  | submit f =>
      have himg : s.imageFile = none := by
        simpa [eventAllowed, Option.isNone_iff_eq_none] using hall
      have hp : s.generatedPrompt = "" := h2 himg
      cases hty : jsStartsWith f.type ("image/") <;>
        simp [step, processFile, hty, PromptErrorInv, hp]
  | generate api =>
      cases himg : s.imageFile with
      | none =>
          have hp : s.generatedPrompt = "" := h2 himg
          simp [step, handleGeneratePrompt, himg, PromptErrorInv, hp]
      | some f =>
          simp only [step, handleGeneratePrompt, himg]
          cases hres : generatePromptFromImage (fileToBase64 f) f.type api with
          | ok prompt => simp [hres, PromptErrorInv, himg]
          | error msg => simp [hres, PromptErrorInv, himg]
  | copy =>
      by_cases hp : s.generatedPrompt = "" <;>
        simp [step, handleCopyPrompt, hp, PromptErrorInv] <;> tauto
  | copyTimer =>
      simp [step, copyTimerFire, PromptErrorInv]
      tauto
  | reset =>
      cases himg : s.imageFile <;>
        simp [step, handleReset, imageUrl, himg, PromptErrorInv]

/-- A guarded trace preserves `PromptErrorInv`. -/
theorem promptErrorInv_run (es : List Event) :
    ∀ s : AppState, PromptErrorInv s → guardedFrom s es = true →
      PromptErrorInv (run s es) := by
  induction es with
  | nil => intro s h _; simpa [run] using h
  | cons e es ih =>
      intro s h hg
      simp only [guardedFrom, Bool.and_eq_true] at hg
      exact run_cons s e es ▸ ih (step s e) (promptErrorInv_step s e h hg.1) hg.2

/-- One operation preserves `IdleNoImage` (no guard needed). -/
theorem idleNoImage_step (s : AppState) (e : Event)
    (hinv : IdleNoImage s) : IdleNoImage (step s e) := by
  cases e with
  | submit f =>
      cases hty : jsStartsWith f.type ("image/") <;>
        simp [step, processFile, hty, IdleNoImage]
  | generate api =>
      cases himg : s.imageFile with
      | none => simp [step, handleGeneratePrompt, himg, IdleNoImage]
      | some f =>
          simp only [step, handleGeneratePrompt, himg]
          cases hres : generatePromptFromImage (fileToBase64 f) f.type api with
          | ok prompt => simp [hres, IdleNoImage]
          | error msg => simp [hres, IdleNoImage]
  | copy =>
      by_cases hp : s.generatedPrompt = "" <;>
        simp [step, handleCopyPrompt, hp, IdleNoImage] <;> exact hinv
  | copyTimer =>
      simp [step, copyTimerFire, IdleNoImage]
      exact hinv
  | reset =>
      cases himg : s.imageFile <;>
        simp [step, handleReset, imageUrl, himg, IdleNoImage]

/-- Any trace preserves `IdleNoImage`. -/
theorem idleNoImage_run (es : List Event) :
    ∀ s : AppState, IdleNoImage s → IdleNoImage (run s es) := by
  induction es with
  | nil => intro s h; simpa [run] using h
  | cons e es ih =>
      intro s h
      exact run_cons s e es ▸ ih (step s e) (idleNoImage_step s e h)

/-- An allowed operation that clears a stored image lands on idle. -/
theorem image_clear_step (s : AppState) (e : Event)
    (hall : eventAllowed s e = true) (h1 : s.imageFile ≠ none)
    (h2 : (step s e).imageFile = none) :
    (step s e).status = AppStatus.idle := by
  cases e with
  | submit f =>
      have himg : s.imageFile = none := by
        simpa [eventAllowed, Option.isNone_iff_eq_none] using hall
      exact absurd himg h1
  | generate api =>
      cases himg : s.imageFile with
      | none => exact absurd himg h1
      | some f =>
          exfalso
          simp only [step, handleGeneratePrompt, himg] at h2
          cases hres : generatePromptFromImage (fileToBase64 f) f.type api <;>
            simp [hres] at h2
  | copy =>
      exfalso
      by_cases hp : s.generatedPrompt = "" <;>
        simp [step, handleCopyPrompt, hp] at h2 <;> exact h1 h2
  | copyTimer =>
      exfalso
      simp [step, copyTimerFire] at h2
      exact h1 h2
  | reset =>
      cases himg : s.imageFile <;>
        simp [step, handleReset, imageUrl, himg]

/-- Claim C1: a call to `handleGeneratePrompt` made while an image is
stored invokes the generation client exactly once, and if that
invocation resolves with text then the resulting status is success and
the stored prompt is the response text with leading and trailing
whitespace removed. -/
theorem c1_generate_with_image_calls_once_and_trims
    (s : AppState) (f : SelectedFile) (api : ApiOutcome)
    (himg : s.imageFile = some f) :
    (handleGeneratePrompt s api).clientCalls = 1 ∧
    ∀ t : String, api = ApiOutcome.success (some t) → t ≠ "" →
      (handleGeneratePrompt s api).state.status = AppStatus.success ∧
      (handleGeneratePrompt s api).state.generatedPrompt = jsTrim t := by
  constructor
  · simp only [handleGeneratePrompt, himg]
    cases hres : generatePromptFromImage (fileToBase64 f) f.type api <;>
      simp [hres]
  · intro t hapi ht
    subst hapi
    simp [handleGeneratePrompt, himg, generatePromptFromImage, ht]

/-- Witness for claim C1 at the concrete previewing state and a
response carrying padded text. -/
theorem c1_witness :
    (handleGeneratePrompt demoPreviewing
        (ApiOutcome.success (some (" A barn ")))).clientCalls = 1 ∧
    (handleGeneratePrompt demoPreviewing
        (ApiOutcome.success (some (" A barn ")))).state.status = AppStatus.success ∧
    (handleGeneratePrompt demoPreviewing
        (ApiOutcome.success (some (" A barn ")))).state.generatedPrompt
      = jsTrim (" A barn ") := by
  have h := c1_generate_with_image_calls_once_and_trims demoPreviewing pngFile
    (ApiOutcome.success (some (" A barn "))) (by decide)
  have h2 := h.2 (" A barn ") rfl (by decide)
  exact ⟨h.1, h2.1, h2.2⟩

/-- Claim C2: submitting a file whose declared media type does not
start with `image/` moves the controller to the error status with
message `Please select a valid image file.` and leaves no image
stored. -/
theorem c2_invalid_media_type_rejected
    (s : AppState) (f : SelectedFile)
    (h : jsStartsWith f.type ("image/") = false) :
    (processFile s f).status = AppStatus.error ∧
    (processFile s f).error = "Please select a valid image file." ∧
    (processFile s f).imageFile = none := by
  simp [processFile, h]

/-- Witness for claim C2 at the concrete previewing state and the
concrete text file. -/
theorem c2_witness :
    jsStartsWith txtFile.type ("image/") = false ∧
    (processFile demoPreviewing txtFile).status = AppStatus.error ∧
    (processFile demoPreviewing txtFile).error = "Please select a valid image file." ∧
    (processFile demoPreviewing txtFile).imageFile = none :=
  ⟨by decide, c2_invalid_media_type_rejected demoPreviewing txtFile (by decide)⟩

/-- Claim C3: a call to `handleGeneratePrompt` made while no image is
stored moves the controller to the error status with message
`Please select an image first.` and never invokes the generation
client. -/
theorem c3_generate_without_image_errors
    (s : AppState) (api : ApiOutcome) (h : s.imageFile = none) :
    (handleGeneratePrompt s api).state.status = AppStatus.error ∧
    (handleGeneratePrompt s api).state.error = "Please select an image first." ∧
    (handleGeneratePrompt s api).clientCalls = 0 := by
  simp [handleGeneratePrompt, h]

/-- Witness for claim C3 at the initial state. -/
theorem c3_witness :
    initialState.imageFile = none ∧
    (handleGeneratePrompt initialState (ApiOutcome.failure none)).state.status
      = AppStatus.error ∧
    (handleGeneratePrompt initialState (ApiOutcome.failure none)).state.error
      = "Please select an image first." ∧
    (handleGeneratePrompt initialState (ApiOutcome.failure none)).clientCalls = 0 :=
  ⟨rfl, c3_generate_without_image_errors initialState (ApiOutcome.failure none) rfl⟩

/-- Claim C4: with an image stored, a generation whose API call rejects
with an `Error` of message `quota exceeded` moves the controller to the
error status with message
`Failed to generate prompt: Gemini API Error: quota exceeded`. -/
theorem c4_quota_exceeded_message
    (s : AppState) (f : SelectedFile) (himg : s.imageFile = some f) :
    (handleGeneratePrompt s
        (ApiOutcome.failure (some ("quota exceeded")))).state.status
      = AppStatus.error ∧
    (handleGeneratePrompt s
        (ApiOutcome.failure (some ("quota exceeded")))).state.error
      = "Failed to generate prompt: Gemini API Error: quota exceeded" := by
  constructor
  · simp [handleGeneratePrompt, himg, generatePromptFromImage]
  · simp only [handleGeneratePrompt, himg, generatePromptFromImage]
    decide

/-- Witness for claim C4 at the concrete previewing state. -/
theorem c4_witness :
    demoPreviewing.imageFile = some pngFile ∧
    (handleGeneratePrompt demoPreviewing
        (ApiOutcome.failure (some ("quota exceeded")))).state.status
      = AppStatus.error ∧
    (handleGeneratePrompt demoPreviewing
        (ApiOutcome.failure (some ("quota exceeded")))).state.error
      = "Failed to generate prompt: Gemini API Error: quota exceeded" :=
  ⟨by decide, c4_quota_exceeded_message demoPreviewing pngFile (by decide)⟩

/-- Claim C5: submitting a file whose declared media type starts with
`image/` moves the controller to the previewing status from any prior
state, stores that file (replacing any existing one), and clears any
previously stored prompt and error; the remaining fields are
untouched. -/
theorem c5_valid_file_enters_previewing
    (s : AppState) (f : SelectedFile)
    (h : jsStartsWith f.type ("image/") = true) :
    processFile s f =
      { imageFile := some f
        generatedPrompt := ""
        error := ""
        status := AppStatus.previewing
        copySuccess := s.copySuccess
        isDragging := s.isDragging } := by
  simp [processFile, h]

/-- Witness for claim C5: submitting the concrete image file over an
error state with a stored error message. -/
theorem c5_witness :
    jsStartsWith pngFile.type ("image/") = true ∧
    processFile (run initialState [Event.submit txtFile]) pngFile =
      { imageFile := some pngFile
        generatedPrompt := ""
        error := ""
        status := AppStatus.previewing
        copySuccess := (run initialState [Event.submit txtFile]).copySuccess
        isDragging := (run initialState [Event.submit txtFile]).isDragging } :=
  ⟨by decide,
    c5_valid_file_enters_previewing (run initialState [Event.submit txtFile]) pngFile
      (by decide)⟩

/-- Claim C6: from every prior state, `handleReset` returns to the idle
status with image, prompt and error cleared, and revokes the display
handle that was bound to the stored image. -/
theorem c6_reset_clears_and_revokes (s : AppState) :
    (handleReset s).state.status = AppStatus.idle ∧
    (handleReset s).state.imageFile = none ∧
    (handleReset s).state.generatedPrompt = "" ∧
    (handleReset s).state.error = "" ∧
    ∀ f : SelectedFile, s.imageFile = some f →
      (handleReset s).revokedUrls = [createObjectURL f] := by
  cases himg : s.imageFile <;>
    simp [handleReset, imageUrl, himg]

/-- Witness for claim C6 at the concrete success state holding the
concrete image file. -/
theorem c6_witness :
    demoSuccess.imageFile = some pngFile ∧
    (handleReset demoSuccess).state.status = AppStatus.idle ∧
    (handleReset demoSuccess).state.imageFile = none ∧
    (handleReset demoSuccess).state.generatedPrompt = "" ∧
    (handleReset demoSuccess).state.error = "" ∧
    (handleReset demoSuccess).revokedUrls = [createObjectURL pngFile] := by
  have h := c6_reset_clears_and_revokes demoSuccess
  exact ⟨by decide, h.1, h.2.1, h.2.2.1, h.2.2.2.1,
    h.2.2.2.2 pngFile (by decide)⟩

/-- Claim C7 counterexample: the trace submit-valid-image, generation
resolving with text, submit-invalid-file reaches a state whose prompt
and error are both non-empty, because the invalid branch of
`processFile` does not clear the stored prompt. -/
theorem c7_counterexample :
    (run initialState
        [Event.submit pngFile,
          Event.generate (ApiOutcome.success (some ("A barn"))),
          Event.submit txtFile]).generatedPrompt ≠ "" ∧
    (run initialState
        [Event.submit pngFile,
          Event.generate (ApiOutcome.success (some ("A barn"))),
          Event.submit txtFile]).error ≠ "" := by decide

/-- Claim C7 (amended): in every state reachable by a sequence of
operations in which files are submitted only while no image is stored
(the guard the interaction surface enforces by rendering the upload
zone only then), the prompt and the error are not both non-empty. -/
theorem c7_guarded_prompt_error_exclusive (es : List Event)
    (h : guardedFrom initialState es = true) :
    ¬((run initialState es).generatedPrompt ≠ "" ∧
      (run initialState es).error ≠ "") := by
  have hinit : PromptErrorInv initialState := by
    constructor <;> simp [initialState]
  exact (promptErrorInv_run es initialState hinit h).1

/-- Witness for the amended claim C7 on a concrete guarded trace that
reaches the success status. -/
theorem c7_witness :
    guardedFrom initialState
        [Event.submit pngFile,
          Event.generate (ApiOutcome.success (some ("A barn")))] = true ∧
    ¬((run initialState
          [Event.submit pngFile,
            Event.generate (ApiOutcome.success (some ("A barn")))]).generatedPrompt ≠ "" ∧
      (run initialState
          [Event.submit pngFile,
            Event.generate (ApiOutcome.success (some ("A barn")))]).error ≠ "") :=
  ⟨by decide,
    c7_guarded_prompt_error_exclusive
      [Event.submit pngFile, Event.generate (ApiOutcome.success (some ("A barn")))]
      (by decide)⟩

/-- Claim C8 counterexample: submitting an invalid file while an image
is stored clears the image while moving to the error status, not to
idle. -/
theorem c8_counterexample :
    (run initialState [Event.submit pngFile]).imageFile ≠ none ∧
    (step (run initialState [Event.submit pngFile])
        (Event.submit txtFile)).imageFile = none ∧
    (step (run initialState [Event.submit pngFile])
        (Event.submit txtFile)).status ≠ AppStatus.idle := by decide

/-- Claim C8 (amended): along every trace in which files are submitted
only while no image is stored (the guard the interaction surface
enforces), a transition that clears a stored image lands on the idle
status, and every transition that lands on the idle status leaves no
image stored. -/
theorem c8_guarded_image_cleared_iff_idle (es : List Event) (e : Event)
    (h : guardedFrom initialState (es ++ [e]) = true) :
    ((run initialState es).imageFile ≠ none →
      (step (run initialState es) e).imageFile = none →
      (step (run initialState es) e).status = AppStatus.idle) ∧
    ((step (run initialState es) e).status = AppStatus.idle →
      (step (run initialState es) e).imageFile = none) := by
  obtain ⟨hg, hall⟩ := guardedFrom_append initialState es e h
  constructor
  · exact image_clear_step (run initialState es) e hall
  · have hL : IdleNoImage (run initialState es) :=
      idleNoImage_run es initialState (by intro h0; rfl)
    exact idleNoImage_step (run initialState es) e hL

/-- Witness for the amended claim C8 on the concrete guarded trace
submit-valid-image then reset. -/
theorem c8_witness :
    guardedFrom initialState ([Event.submit pngFile] ++ [Event.reset]) = true ∧
    (run initialState [Event.submit pngFile]).imageFile ≠ none ∧
    (step (run initialState [Event.submit pngFile]) Event.reset).imageFile = none ∧
    (step (run initialState [Event.submit pngFile]) Event.reset).status
      = AppStatus.idle := by
  have h := c8_guarded_image_cleared_iff_idle [Event.submit pngFile] Event.reset
    (by decide)
  exact ⟨by decide, by decide, by decide, h.1 (by decide) (by decide)⟩

/-- Claim C9: `handleCopyPrompt` with an empty prompt changes no state,
writes nothing to the clipboard and schedules no timer; with a
non-empty prompt it writes exactly the stored prompt to the clipboard,
sets the feedback flag, schedules a 2000 ms timer, and that timer
clears the feedback flag when it fires. -/
theorem c9_copy_behaviour (s : AppState) :
    (s.generatedPrompt = "" →
      (handleCopyPrompt s).state = s ∧
      (handleCopyPrompt s).clipboardWrite = none ∧
      (handleCopyPrompt s).timerDelayMs = none) ∧
    (s.generatedPrompt ≠ "" →
      (handleCopyPrompt s).clipboardWrite = some s.generatedPrompt ∧
      (handleCopyPrompt s).state.copySuccess = true ∧
      (handleCopyPrompt s).timerDelayMs = some 2000 ∧
      (copyTimerFire (handleCopyPrompt s).state).copySuccess = false) := by
  constructor
  · intro hp; simp [handleCopyPrompt, hp]
  · intro hp; simp [handleCopyPrompt, hp, copyTimerFire]

/-- Witness for claim C9: the empty half at the initial state and the
non-empty half at the concrete success state. -/
theorem c9_witness :
    (handleCopyPrompt initialState).state = initialState ∧
    (handleCopyPrompt initialState).clipboardWrite = none ∧
    (handleCopyPrompt initialState).timerDelayMs = none ∧
    (handleCopyPrompt demoSuccess).clipboardWrite = some demoSuccess.generatedPrompt ∧
    (handleCopyPrompt demoSuccess).state.copySuccess = true ∧
    (handleCopyPrompt demoSuccess).timerDelayMs = some 2000 ∧
    (copyTimerFire (handleCopyPrompt demoSuccess).state).copySuccess = false := by
  have h1 := (c9_copy_behaviour initialState).1 (by decide)
  have h2 := (c9_copy_behaviour demoSuccess).2 (by decide)
  exact ⟨h1.1, h1.2.1, h1.2.2, h2.1, h2.2.1, h2.2.2.1, h2.2.2.2⟩

/-- Claim C10 counterexample: the failure produced by an empty API
response is identical to the failure produced by a service rejection
carrying the same underlying message, because the empty-response error
is thrown inside the `try` block and re-wrapped by the service-error
`catch`; the empty-response classification is therefore not distinct
from the service-error classification. -/
theorem c10_counterexample :
    generatePromptFromImage ("payloadA") ("image/png")
        (ApiOutcome.success (some (""))) =
      generatePromptFromImage ("payloadA") ("image/png")
        (ApiOutcome.failure (some ("The API response was empty or invalid."))) := by
  decide

/-- Claim C10 (amended): an API call that resolves with no text or
empty text makes the client fail with the message
`Gemini API Error: The API response was empty or invalid.`, which
identifies the empty-response condition and differs from the
unknown-error classification, but carries the service-error wrapper
because the internal empty-response error is re-caught. -/
theorem c10_empty_response_classified (imageData mimeType : String)
    (text : Option String) (h : text = none ∨ text = some "") :
    generatePromptFromImage imageData mimeType (ApiOutcome.success text) =
      Except.error ("Gemini API Error: The API response was empty or invalid.") ∧
    generatePromptFromImage imageData mimeType (ApiOutcome.success text) ≠
      generatePromptFromImage imageData mimeType (ApiOutcome.failure none) := by
  rcases h with h | h <;> subst h <;>
    refine ⟨?_, ?_⟩ <;> simp only [generatePromptFromImage] <;> decide

/-- Witness for the amended claim C10 at an empty text response. -/
theorem c10_witness :
    ((some ("") : Option String) = none ∨ (some ("") : Option String) = some "") ∧
    generatePromptFromImage ("payloadA") ("image/png")
        (ApiOutcome.success (some (""))) =
      Except.error ("Gemini API Error: The API response was empty or invalid.") ∧
    generatePromptFromImage ("payloadA") ("image/png")
        (ApiOutcome.success (some (""))) ≠
      generatePromptFromImage ("payloadA") ("image/png") (ApiOutcome.failure none) :=
  ⟨Or.inr rfl,
    c10_empty_response_classified ("payloadA") ("image/png") (some ("")) (Or.inr rfl)⟩

end ImageToPrompt
